import Mathlib

/-!
Shallow embedding of the zapw session-lifecycle orchestrator
(src/services/whatsappService.ts, src/services/sessionManager.ts,
src/adapters/webhookAdapter.ts, src/controllers/eventsController.ts,
src/controllers/sessionsController.ts) and proofs of the spec claims.

Timestamps are modelled as natural numbers of milliseconds.  JavaScript
`Map<string, _>` objects are modelled as association lists, `undefined`
optional fields as `Option`, and rejected promises as `Except`.
-/

namespace Zapw

/-- Session status enum, src/models/Session.ts. -/
inductive Status
  | initializing
  | connecting
  | qr_waiting
  | connected
  | disconnected
deriving DecidableEq, Repr

/-- Session record, src/models/Session.ts (all fields used by the services). -/
structure Session where
  id : String
  status : Status
  phoneNumber : Option String := none
  name : Option String := none
  createdAt : Nat := 0
  connectedAt : Option Nat := none
  qrCode : Option String := none
  qrExpiresAt : Option Nat := none
deriving DecidableEq, Repr

/-- JavaScript `a || b` on an optional string: `undefined` and the empty
string are falsy, so both fall back to the default. -/
def jsOr (o : Option String) (d : String) : String :=
  match o with
  | some s => if s = "" then d else s
  | none => d

/-- JavaScript truthiness of an optional string (`undefined` and `""` are falsy). -/
def jsTruthy (o : Option String) : Bool :=
  match o with
  | some s => s ≠ ""
  | none => false

/-- Webhook event envelope, src/models/Event.ts (payload omitted: no claim
depends on its contents). -/
structure WebhookEvent where
  sessionId : String
  origin : String
  eventType : String
  timestamp : Nat
deriving DecidableEq, Repr

/-- Errors thrown by the services (src/models/errors.ts plus the timeout
thrown by waitForQRCode). -/
inductive SvcError
  | notFound
  | alreadyExists
  | timeout
deriving DecidableEq, Repr

/-- In-memory orchestrator state: the session registry
(SessionManager.sessions), the transport-handle map keys
(WhatsAppService.clients) and ghost counters of transport
`connect()` / `disconnect()` calls. -/
structure OrchState where
  sessions : List (String × Session)
  clients : List String
  connectCount : Nat := 0
  disconnectCount : Nat := 0
deriving DecidableEq, Repr

/-- `Map.get(sid)`: first binding for the key, if any. -/
def lookupSession : List (String × Session) → String → Option Session
  | [], _ => none
  | (k, v) :: rest, sid => if k = sid then some v else lookupSession rest sid

/-- `sessionManager.getSession`, src/services/sessionManager.ts. -/
def getSession (st : OrchState) (sid : String) : Option Session :=
  lookupSession st.sessions sid

/-- `Map.set(sid, s)`: replace the binding if present, otherwise append. -/
def setPair (l : List (String × Session)) (sid : String) (s : Session) :
    List (String × Session) :=
  match l with
  | [] => [(sid, s)]
  | (k, v) :: rest =>
    if k = sid then (k, s) :: rest else (k, v) :: setPair rest sid s

/-- Replace the stored session for `sid` in the registry. -/
def setSession (st : OrchState) (sid : String) (s : Session) : OrchState :=
  { st with sessions := setPair st.sessions sid s }

/-- `clients.set(sid, client)` keyed insert: at most one handle per id. -/
def insertClient (cs : List String) (sid : String) : List String :=
  if cs.contains sid then cs else sid :: cs

/-- Connection info delivered by the transport's connected callback,
src/adapters/whatsappAdapter.ts (`ConnectionInfo`). -/
structure ConnectionInfo where
  phoneNumber : String
  name : Option String := none
deriving DecidableEq, Repr

/-- Session update performed by the onQR handler
(whatsappService.ts lines 69-78): store the QR image, stamp
`qrExpiresAt = now + 60s`, move to `qr_waiting`. -/
def onQRUpdate (now : Nat) (qrImage : String) (s : Session) : Session :=
  { s with qrCode := some qrImage,
           qrExpiresAt := some (now + 60 * 1000),
           status := .qr_waiting }

/-- onQR handler (whatsappService.ts lines 46-78).  A failed
`updateSession` is only logged (`.catch`), so a missing session leaves the
state unchanged. -/
def onQR (now : Nat) (st : OrchState) (sid : String) (qrImage : String) : OrchState :=
  match getSession st sid with
  | none => st
  | some s => setSession st sid (onQRUpdate now qrImage s)

/-- Session update performed by the onConnected handler
(whatsappService.ts lines 80-89): record account info, move to
`connected`, clear `qrCode` and `qrExpiresAt`. -/
def onConnectedUpdate (now : Nat) (info : ConnectionInfo) (s : Session) : Session :=
  { s with phoneNumber := some info.phoneNumber,
           name := info.name,
           status := .connected,
           connectedAt := some now,
           qrCode := none,
           qrExpiresAt := none }

/-- `session.connected` event built by the onConnected handler
(whatsappService.ts lines 91-98): `origin` is the callback's phone number. -/
def connectedEvent (sid : String) (now : Nat) (info : ConnectionInfo) : WebhookEvent :=
  { sessionId := sid,
    origin := info.phoneNumber,
    eventType := "session.connected",
    timestamp := now }

/-- onConnected handler (whatsappService.ts lines 80-99): `updateSession`
rejects when the session is missing. -/
def onConnected (now : Nat) (st : OrchState) (sid : String) (info : ConnectionInfo) :
    Except SvcError (OrchState × WebhookEvent) :=
  match getSession st sid with
  | none => .error .notFound
  | some s =>
    .ok (setSession st sid (onConnectedUpdate now info s), connectedEvent sid now info)

/-- `session.disconnected` event built by the onDisconnected handler
(whatsappService.ts lines 110-116): `origin = session.phoneNumber || sessionId`. -/
def disconnectedEvent (sid : String) (now : Nat) (s : Session) : WebhookEvent :=
  { sessionId := sid,
    origin := jsOr s.phoneNumber sid,
    eventType := "session.disconnected",
    timestamp := now }

/-- onDisconnected handler (whatsappService.ts lines 101-121): set
`status` to `disconnected` (no other field is touched), emit
`session.disconnected` for the re-read session, then drop the transport
handle from the client map. -/
def onDisconnected (now : Nat) (st : OrchState) (sid : String) :
    Except SvcError (OrchState × WebhookEvent) :=
  match getSession st sid with
  | none => .error .notFound
  | some s =>
    let s' : Session := { s with status := .disconnected }
    let st' := setSession st sid s'
    .ok ({ st' with clients := st'.clients.erase sid }, disconnectedEvent sid now s')

/-- `message.received` event built by the onMessageReceived handler
(whatsappService.ts lines 124-137); `none` when the session is gone
(the handler returns early). -/
def messageReceivedEvent (now : Nat) (st : OrchState) (sid : String) :
    Option WebhookEvent :=
  match getSession st sid with
  | none => none
  | some s =>
    some { sessionId := sid,
           origin := jsOr s.phoneNumber sid,
           eventType := "message.received",
           timestamp := now }

/-- Status-code → event-type lookup of the onMessageStatusUpdate handler
(whatsappService.ts lines 144-147): 3 ↦ delivered, 4 ↦ read, else sent. -/
def statusEventType (status : Nat) : String :=
  if status = 3 then "message.delivered"
  else if status = 4 then "message.read"
  else "message.sent"

/-- Message-status event built by the onMessageStatusUpdate handler
(whatsappService.ts lines 140-161). -/
def messageStatusEvent (now : Nat) (st : OrchState) (sid : String) (status : Nat) :
    Option WebhookEvent :=
  match getSession st sid with
  | none => none
  | some s =>
    some { sessionId := sid,
           origin := jsOr s.phoneNumber sid,
           eventType := statusEventType status,
           timestamp := now }

/-- Tail of `initializeSession` (whatsappService.ts lines 163-175): set the
session to `connecting`, call `client.connect()` (counted), register the
handle. -/
def initializeSessionCore (st : OrchState) (sid : String) : Except SvcError OrchState :=
  match getSession st sid with
  | none => .error .notFound
  | some s =>
    let st' := setSession st sid { s with status := .connecting }
    .ok { st' with clients := insertClient st'.clients sid,
                   connectCount := st'.connectCount + 1 }

/-- The expiry check of `refreshQRCode` (whatsappService.ts line 256):
`session.qrExpiresAt && new Date() < session.qrExpiresAt`; an absent
expiry is falsy, so the refresh proceeds. -/
def qrStillValid (now : Nat) (s : Session) : Bool :=
  match s.qrExpiresAt with
  | some e => now < e
  | none => false

/-- Teardown step of `refreshQRCode` (whatsappService.ts lines 263-267):
disconnect and drop the handle if one exists. -/
def teardownClient (st : OrchState) (sid : String) : OrchState :=
  if st.clients.contains sid then
    { st with clients := st.clients.erase sid,
              disconnectCount := st.disconnectCount + 1 }
  else st

/-- State effect of `refreshQRCode` (whatsappService.ts lines 244-274):
not-found check, `qr_waiting` guard, expiry guard, teardown, re-initialize.
(The trailing 15s wait is a pure time bound, modelled by `waitPolls`.) -/
def refreshQRCode (now : Nat) (st : OrchState) (sid : String) :
    Except SvcError OrchState :=
  match getSession st sid with
  | none => .error .notFound
  | some s =>
    if s.status ≠ .qr_waiting then .ok st
    else if qrStillValid now s then .ok st
    else initializeSessionCore (teardownClient st sid) sid

/-- Result of `waitForQRCode` (whatsappService.ts lines 222-242): normal
return, SessionNotFoundError, or the timeout error thrown after the loop. -/
inductive WaitResult
  | ok
  | notFound
  | timeout
deriving DecidableEq, Repr

/-- Wait predicate of `waitForQRCode` (whatsappService.ts line 233):
`session.qrCode || session.status === 'connected' || session.status ===
'disconnected'` (an empty `qrCode` string would be falsy in JS). -/
def qrReady (s : Session) : Bool :=
  jsTruthy s.qrCode || s.status == .connected || s.status == .disconnected

/-- Polling loop of `waitForQRCode` (whatsappService.ts lines 225-239):
one poll per 100 ms sleep; `trace k` is the registry snapshot seen at the
k-th poll; `fuel` is the number of polls that fit in the timeout.  Returns
the result together with the index of the poll at which the loop exited. -/
def waitPolls (trace : Nat → Option Session) (k : Nat) : Nat → WaitResult × Nat
  | 0 => (.timeout, k)
  | fuel + 1 =>
    match trace k with
    | none => (.notFound, k)
    | some s => if qrReady s then (.ok, k) else waitPolls trace (k + 1) fuel

/-- Number of 100 ms polls executed before `Date.now() - startTime <
timeoutMs` fails (whatsappService.ts line 225). -/
def pollBudget (timeoutMs : Nat) : Nat := (timeoutMs + 99) / 100

/-- `waitForQRCode` (whatsappService.ts lines 222-242). -/
def waitForQRCode (trace : Nat → Option Session) (timeoutMs : Nat) : WaitResult :=
  (waitPolls trace 0 (pollBudget timeoutMs)).1

/-- Default timeout of `waitForQRCode` (whatsappService.ts line 222),
used by session creation. -/
def createWaitTimeoutMs : Nat := 30000

/-- Timeout passed to `waitForQRCode` by `refreshQRCode`
(whatsappService.ts line 273). -/
def refreshWaitTimeoutMs : Nat := 15000

/-! ### Interleaved refresh executions (claim C1)

`refreshQRCode` holds no lock and installs no in-flight marker, so two
concurrent invocations interleave at `await` points.  Each invocation is
split into its three atomic phases: the guard reads (lines 245-258), the
teardown (lines 263-267) and the re-initialization (line 270). -/

/-- Program counter of one in-flight `refreshQRCode` invocation. -/
inductive RefreshPC
  | guard
  | teardown
  | reinit
  | done
deriving DecidableEq, Repr

/-- Combined guard of `refreshQRCode` (lines 251-258): proceed only when
the session is in `qr_waiting` and its QR has expired. -/
def refreshGuardPasses (now : Nat) (s : Session) : Bool :=
  s.status == .qr_waiting && !qrStillValid now s

/-- One atomic phase of an in-flight `refreshQRCode` invocation. -/
def refreshStep (now : Nat) (sid : String) (st : OrchState) (pc : RefreshPC) :
    OrchState × RefreshPC :=
  match pc with
  | .guard =>
    match getSession st sid with
    | none => (st, .done)
    | some s => if refreshGuardPasses now s then (st, .teardown) else (st, .done)
  | .teardown => (teardownClient st sid, .reinit)
  | .reinit =>
    match initializeSessionCore st sid with
    | .ok st' => (st', .done)
    | .error _ => (st, .done)
  | .done => (st, .done)

/-- Run interleaved refresh invocations under a schedule: each schedule
entry names the thread that executes its next atomic phase. -/
def runSchedule (now : Nat) (sid : String) (st : OrchState) (pcs : List RefreshPC) :
    List Nat → OrchState × List RefreshPC
  | [] => (st, pcs)
  | t :: rest =>
    match pcs.get? t with
    | none => runSchedule now sid st pcs rest
    | some pc =>
      let r := refreshStep now sid st pc
      runSchedule now sid r.1 (pcs.set t r.2) rest

/-! ### Persistence and session manager (claims C6, C8) -/

/-- Persisted metadata record, src/adapters/persistenceAdapter.ts
(`SessionData`); timestamps as milliseconds. -/
structure SessionData where
  id : String
  phoneNumber : Option String := none
  name : Option String := none
  createdAt : Nat := 0
  connectedAt : Option Nat := none
  lastDisconnectedAt : Option Nat := none
deriving DecidableEq, Repr

/-- `removeSessionMetadata` (persistenceAdapter.ts lines 39-43): delete
the keyed record. -/
def removeMetadata (meta : List SessionData) (sid : String) : List SessionData :=
  meta.filter (fun r => r.id ≠ sid)

/-- Session rebuilt from a metadata record by `loadPersistedSessions`
(sessionManager.ts lines 142-149): admitted as `disconnected` with its
known identity and timestamps, no QR fields. -/
def restoredSession (r : SessionData) : Session :=
  { id := r.id,
    status := .disconnected,
    phoneNumber := r.phoneNumber,
    name := r.name,
    createdAt := r.createdAt,
    connectedAt := r.connectedAt }

/-- `SessionManager.loadPersistedSessions` (sessionManager.ts lines
133-158): for each persisted record, admit it into the registry when its
durable auth material exists, otherwise delete the orphaned record from
the metadata store.  Returns the registry and the surviving metadata. -/
def loadPersistedSessions (records : List SessionData) (authIds : List String)
    (reg : List (String × Session)) (meta : List SessionData) :
    List (String × Session) × List SessionData :=
  match records with
  | [] => (reg, meta)
  | r :: rest =>
    if authIds.contains r.id then
      loadPersistedSessions rest authIds (setPair reg r.id (restoredSession r)) meta
    else
      loadPersistedSessions rest authIds reg (removeMetadata meta r.id)

/-- `WhatsAppService.initialize` (whatsappService.ts lines 18-32): attempt
`initializeSession` for every registry session whose status is
`disconnected` (failures are caught and logged, so every such id gets an
attempt). -/
def reconnectTargets (reg : List (String × Session)) : List String :=
  (reg.filter (fun p => p.2.status == .disconnected)).map Prod.fst

/-- Full session-manager state for deletion: registry, metadata store and
the set of ids with durable auth material. -/
structure ManagerState where
  sessions : List (String × Session)
  meta : List SessionData
  authIds : List String
deriving DecidableEq, Repr

/-- `SessionManager.deleteSession` (sessionManager.ts lines 115-123):
when the id exists, remove it from the registry, remove its metadata
record and delete its auth material, returning `true`; otherwise return
`false` without touching anything. -/
def deleteSession (st : ManagerState) (sid : String) : ManagerState × Bool :=
  if (lookupSession st.sessions sid).isSome then
    ({ sessions := st.sessions.filter (fun p => p.1 ≠ sid),
       meta := removeMetadata st.meta sid,
       authIds := st.authIds.filter (fun a => a ≠ sid) }, true)
  else (st, false)

/-- DELETE /sessions/:id handler (sessionsController.ts lines 84-104):
404 Not Found when `deleteSession` reports the id unknown, 204 otherwise. -/
def deleteSessionHandler (st : ManagerState) (sid : String) : ManagerState × Nat :=
  let r := deleteSession st sid
  (r.1, if r.2 then 204 else 404)

/-! ### Event dispatcher (claims C7, C10) -/

/-- Stored event of the recent-events buffer, src/controllers/eventsController.ts
(payload omitted). -/
structure StoredEvent where
  id : String
  sessionId : String
  eventType : String
  timestamp : Nat
deriving DecidableEq, Repr

/-- In-memory recent-events buffer state (eventsController.ts lines 43-45):
the event list and the id counter. -/
structure EventsBufferState where
  events : List StoredEvent := []
  eventIdCounter : Nat := 0
deriving DecidableEq, Repr

/-- `storeWebhookEvent` (src/app.ts lines 50-66): build the event with the
next counter id, unshift it (newest first), keep only the last 10. -/
def storeWebhookEvent (st : EventsBufferState) (sessionId eventType : String)
    (now : Nat) : EventsBufferState :=
  let c := st.eventIdCounter + 1
  let e : StoredEvent :=
    { id := "evt_" ++ toString c, sessionId := sessionId,
      eventType := eventType, timestamp := now }
  let events := e :: st.events
  { events := if events.length > 10 then events.take 10 else events,
    eventIdCounter := c }

/-- Webhook adapter configuration (webhookAdapter.ts constructor, populated
from src/utils/config.ts whose defaults are 3 attempts and 1000 ms). -/
structure WebhookConfig where
  webhookUrl : String
  enabled : Bool
  retryAttempts : Nat := 3
  retryDelay : Nat := 1000
deriving DecidableEq, Repr

/-- Outcome of one `sendEvent` call: the updated recent-events buffer, the
number of delivery attempts made, the sleeps performed between attempts
(in ms, in order) and whether delivery succeeded. -/
structure SendOutcome where
  buffer : EventsBufferState
  attemptsMade : Nat
  delays : List Nat
  delivered : Bool
deriving DecidableEq, Repr

/-- Result of the retry loop alone. -/
structure RetryResult where
  attemptsMade : Nat
  delays : List Nat
  delivered : Bool
deriving DecidableEq, Repr

/-- Retry loop of `WebhookAdapter.sendEvent` (webhookAdapter.ts lines
635-651): `post a` is the outcome of the HTTP attempt numbered `a`
(errors are caught by the loop); on failure sleep `retryDelay * attempt`
unless this was the last attempt.  `fuel` counts the attempts still
allowed, i.e. `retryAttempts - attempt + 1` at entry. -/
def retryLoop (post : Nat → Except String Unit) (retryAttempts retryDelay : Nat) :
    Nat → Nat → RetryResult
  | _, 0 => { attemptsMade := 0, delays := [], delivered := false }
  | attempt, fuel + 1 =>
    match post attempt with
    | .ok _ => { attemptsMade := 1, delays := [], delivered := true }
    | .error _ =>
      if attempt < retryAttempts then
        let r := retryLoop post retryAttempts retryDelay (attempt + 1) fuel
        { attemptsMade := r.attemptsMade + 1,
          delays := retryDelay * attempt :: r.delays,
          delivered := r.delivered }
      else { attemptsMade := 1, delays := [], delivered := false }

/-- `WebhookAdapter.sendEvent` (webhookAdapter.ts lines 628-651): always
store the event in the recent-events buffer first; then, only when enabled
and configured, run the bounded retry loop.  Every attempt error is
consumed by the loop's catch, so the function returns normally on every
input — nothing propagates to the caller. -/
def sendEvent (cfg : WebhookConfig) (post : Nat → Except String Unit)
    (buf : EventsBufferState) (ev : WebhookEvent) : SendOutcome :=
  let buf' := storeWebhookEvent buf ev.sessionId ev.eventType ev.timestamp
  if !cfg.enabled || cfg.webhookUrl = "" then
    { buffer := buf', attemptsMade := 0, delays := [], delivered := false }
  else
    let r := retryLoop post cfg.retryAttempts cfg.retryDelay 1 cfg.retryAttempts
    { buffer := buf', attemptsMade := r.attemptsMade,
      delays := r.delays, delivered := r.delivered }

/-! ### Session mutations as a closed event alphabet (claim C5) -/

/-- The fresh session built by `SessionManager.createSession`
(sessionManager.ts lines 78-82). -/
def newSession (id : String) (now : Nat) : Session :=
  { id := id, status := .initializing, createdAt := now }

/-- Every mutation the services apply to a single session record: the
three transport callbacks and the `connecting` update of
`initializeSession` (whatsappService.ts lines 165-167). -/
inductive SessionMutation
  | qrIssued (now : Nat) (qrImage : String)
  | connectedCb (now : Nat) (info : ConnectionInfo)
  | disconnectedCb
  | connectingUpdate
deriving DecidableEq, Repr

/-- Apply one mutation to a session record, exactly as the corresponding
`updateSession` merge does. -/
def applyMutation (s : Session) : SessionMutation → Session
  | .qrIssued now img => onQRUpdate now img s
  | .connectedCb now info => onConnectedUpdate now info s
  | .disconnectedCb => { s with status := .disconnected }
  | .connectingUpdate => { s with status := .connecting }

/-- The coupling invariant of claim C5: `qrCode` and `qrExpiresAt` are
both present or both absent. -/
def qrCoupled (s : Session) : Prop :=
  s.qrCode.isSome = s.qrExpiresAt.isSome

/-! ### Registry lemmas -/

lemma lookupSession_setPair_self (l : List (String × Session)) (sid : String) (s : Session) :
    lookupSession (setPair l sid s) sid = some s := by
  induction l with
  | nil => simp [setPair, lookupSession]
  | cons p rest ih =>
    obtain ⟨k, v⟩ := p
    by_cases h : k = sid
    · simp [setPair, lookupSession, h]
    · simp [setPair, lookupSession, h, ih]

lemma lookupSession_setPair_ne (l : List (String × Session)) (sid sid' : String)
    (s : Session) (h : sid' ≠ sid) :
    lookupSession (setPair l sid s) sid' = lookupSession l sid' := by
  induction l with
  | nil => simp [setPair, lookupSession, Ne.symm h]
  | cons p rest ih =>
    obtain ⟨k, v⟩ := p
    by_cases hk : k = sid
    · subst hk
      simp [setPair, lookupSession, Ne.symm h]
    · by_cases hk' : k = sid'
      · simp [setPair, lookupSession, hk, hk', h]
      · simp [setPair, lookupSession, hk, hk', ih]

lemma getSession_setSession_self (st : OrchState) (sid : String) (s : Session) :
    getSession (setSession st sid s) sid = some s :=
  lookupSession_setPair_self st.sessions sid s

lemma sessions_teardownClient (st : OrchState) (sid : String) :
    (teardownClient st sid).sessions = st.sessions := by
  unfold teardownClient
  split <;> rfl

lemma connectCount_teardownClient (st : OrchState) (sid : String) :
    (teardownClient st sid).connectCount = st.connectCount := by
  unfold teardownClient
  split <;> rfl

lemma getSession_teardownClient (st : OrchState) (sid sid' : String) :
    getSession (teardownClient st sid) sid' = getSession st sid' := by
  unfold getSession
  rw [sessions_teardownClient]

/-- C4: a session that is not in `qr_waiting`, or whose QR has not yet
expired, is left strictly untouched by `refreshQRCode`: the whole
orchestrator state (registry, client handles, connect/disconnect
counters) is returned unmodified. -/
theorem refresh_noop_when_not_expired (now : Nat) (st : OrchState) (sid : String)
    (s : Session) (hs : getSession st sid = some s)
    (h : s.status ≠ .qr_waiting ∨ ∃ e, s.qrExpiresAt = some e ∧ now < e) :
    refreshQRCode now st sid = .ok st := by
  unfold refreshQRCode
  rw [hs]
  rcases h with h | ⟨e, he, hlt⟩
  · simp [h]
  · have hv : qrStillValid now s = true := by simp [qrStillValid, he, hlt]
    by_cases hq : s.status = Status.qr_waiting
    · simp [hq, hv]
    · simp [hq]

theorem refresh_noop_when_not_expired_witness :
    getSession ⟨[("s", { id := "s", status := .connected })], [], 0, 0⟩ "s" =
        some { id := "s", status := .connected } ∧
    refreshQRCode 5 ⟨[("s", { id := "s", status := .connected })], [], 0, 0⟩ "s" =
      .ok ⟨[("s", { id := "s", status := .connected })], [], 0, 0⟩ :=
  ⟨by decide,
   refresh_noop_when_not_expired 5 _ "s" { id := "s", status := .connected }
     (by decide) (Or.inl (by decide))⟩

/-- C5: `qrCode` and `qrExpiresAt` are both present or both absent at
every observed point: the coupling holds for a freshly created session and
for every session restored from persistence, and it is preserved by every
sequence of session mutations the services perform. -/
theorem qr_fields_coupled (s : Session) (hs : qrCoupled s) (ms : List SessionMutation) :
    qrCoupled (ms.foldl applyMutation s) ∧
    (∀ id now, qrCoupled (newSession id now)) ∧
    (∀ r, qrCoupled (restoredSession r)) := by
  refine ⟨?_, fun id now => rfl, fun r => rfl⟩
  induction ms generalizing s with
  | nil => exact hs
  | cons m rest ih =>
    refine ih (applyMutation s m) ?_
    cases m with
    | qrIssued now img => simp [applyMutation, onQRUpdate, qrCoupled]
    | connectedCb now info => simp [applyMutation, onConnectedUpdate, qrCoupled]
    | disconnectedCb => simpa [applyMutation, qrCoupled] using hs
    | connectingUpdate => simpa [applyMutation, qrCoupled] using hs

theorem qr_fields_coupled_witness :
    qrCoupled (newSession "a" 0) ∧
    qrCoupled ([SessionMutation.qrIssued 1 "QR", SessionMutation.disconnectedCb].foldl
      applyMutation (newSession "a" 0)) :=
  ⟨rfl,
   (qr_fields_coupled (newSession "a" 0) rfl
     [SessionMutation.qrIssued 1 "QR", SessionMutation.disconnectedCb]).1⟩

/-- C10: `sendEvent` records the event in the recent-events buffer before
(and regardless of) the delivery-enabled check, the new event sits at the
head of the buffer (newest first), and the buffer never grows past 10
entries. -/
theorem buffer_updated_regardless (cfg : WebhookConfig) (post : Nat → Except String Unit)
    (buf : EventsBufferState) (ev : WebhookEvent) :
    (sendEvent cfg post buf ev).buffer =
        storeWebhookEvent buf ev.sessionId ev.eventType ev.timestamp ∧
    (storeWebhookEvent buf ev.sessionId ev.eventType ev.timestamp).events.head? =
        some { id := "evt_" ++ toString (buf.eventIdCounter + 1),
               sessionId := ev.sessionId, eventType := ev.eventType,
               timestamp := ev.timestamp } ∧
    (buf.events.length ≤ 10 →
        (storeWebhookEvent buf ev.sessionId ev.eventType ev.timestamp).events.length ≤ 10) := by
  refine ⟨?_, ?_, ?_⟩
  · simp only [sendEvent]
    split <;> rfl
  · simp only [storeWebhookEvent]
    split <;> simp
  · intro hlen
    simp only [storeWebhookEvent]
    split
    · simp
    · next h =>
      simp at h ⊢
      omega

theorem buffer_updated_regardless_witness :
    (⟨[], 0⟩ : EventsBufferState).events.length ≤ 10 ∧
    (storeWebhookEvent ⟨[], 0⟩ "s1" "session.connected" 7).events.length ≤ 10 :=
  ⟨by decide,
   (buffer_updated_regardless ⟨"http://example", true, 3, 1000⟩ (fun _ => .ok ())
     ⟨[], 0⟩ ⟨"s1", "555", "session.connected", 7⟩).2.2 (by decide)⟩

lemma lookupSession_filter_ne (l : List (String × Session)) (sid : String) :
    lookupSession (l.filter (fun p => p.1 ≠ sid)) sid = none := by
  induction l with
  | nil => rfl
  | cons p rest ih =>
    obtain ⟨k, v⟩ := p
    by_cases h : k = sid
    · simpa [List.filter_cons, h] using ih
    · simpa [List.filter_cons, h, lookupSession] using ih

lemma retryLoop_attemptsMade_le (post : Nat → Except String Unit)
    (rA rD : Nat) : ∀ (fuel attempt : Nat),
    (retryLoop post rA rD attempt fuel).attemptsMade ≤ fuel := by
  intro fuel
  induction fuel with
  | zero => intro attempt; simp [retryLoop]
  | succ n ih =>
    intro attempt
    simp only [retryLoop]
    cases post attempt with
    | ok _ => simp
    | error _ =>
      by_cases h : attempt < rA
      · simp only [h, if_true]
        have := ih (attempt + 1)
        omega
      · simp [h]

/-- C7: with the default configuration (3 attempts, 1 s base delay), a
dispatched event is attempted at most 3 times; when the endpoint fails on
every attempt, exactly 3 attempts are made with linearly increasing sleeps
of `attempt * baseDelay` (1000 ms, then 2000 ms) between them, the event
is dropped (`delivered = false`), and `sendEvent` still returns an
ordinary `SendOutcome` — attempt errors are consumed by the retry loop and
never reach the caller. -/
theorem dispatch_retry_bounded (cfg : WebhookConfig)
    (hA : cfg.retryAttempts = 3) (hD : cfg.retryDelay = 1000)
    (hEn : cfg.enabled = true) (hUrl : cfg.webhookUrl ≠ "")
    (post : Nat → Except String Unit) (buf : EventsBufferState) (ev : WebhookEvent) :
    (sendEvent cfg post buf ev).attemptsMade ≤ 3 ∧
    ((∀ a, ∃ m, post a = .error m) →
      (sendEvent cfg post buf ev).attemptsMade = 3 ∧
      (sendEvent cfg post buf ev).delays = [1000, 2000] ∧
      (sendEvent cfg post buf ev).delivered = false) := by
  have hsend : sendEvent cfg post buf ev =
      { buffer := storeWebhookEvent buf ev.sessionId ev.eventType ev.timestamp,
        attemptsMade := (retryLoop post cfg.retryAttempts cfg.retryDelay 1
          cfg.retryAttempts).attemptsMade,
        delays := (retryLoop post cfg.retryAttempts cfg.retryDelay 1
          cfg.retryAttempts).delays,
        delivered := (retryLoop post cfg.retryAttempts cfg.retryDelay 1
          cfg.retryAttempts).delivered } := by
    simp only [sendEvent, hEn, Bool.not_true, hUrl, Bool.false_or, if_neg,
      decide_eq_true_eq]
    simp [hUrl]
  constructor
  · rw [hsend, hA]
    exact retryLoop_attemptsMade_le post 3 cfg.retryDelay 3 1
  · intro hfail
    obtain ⟨m1, h1⟩ := hfail 1
    obtain ⟨m2, h2⟩ := hfail 2
    obtain ⟨m3, h3⟩ := hfail 3
    rw [hsend, hA, hD]
    simp [retryLoop, h1, h2, h3]

theorem dispatch_retry_bounded_witness :
    ((⟨"http://example", true, 3, 1000⟩ : WebhookConfig).retryAttempts = 3 ∧
     (⟨"http://example", true, 3, 1000⟩ : WebhookConfig).retryDelay = 1000 ∧
     (⟨"http://example", true, 3, 1000⟩ : WebhookConfig).enabled = true ∧
     (⟨"http://example", true, 3, 1000⟩ : WebhookConfig).webhookUrl ≠ "" ∧
     (∀ a : Nat, ∃ m, (fun _ : Nat => (Except.error "down" : Except String Unit)) a =
        .error m)) ∧
    (sendEvent ⟨"http://example", true, 3, 1000⟩
        (fun _ => .error "down") ⟨[], 0⟩ ⟨"s1", "555", "session.connected", 7⟩).delays =
      [1000, 2000] :=
  ⟨⟨rfl, rfl, rfl, by decide, fun a => ⟨"down", rfl⟩⟩,
   ((dispatch_retry_bounded ⟨"http://example", true, 3, 1000⟩ rfl rfl rfl (by decide)
      (fun _ => .error "down") ⟨[], 0⟩ ⟨"s1", "555", "session.connected", 7⟩).2
      (fun a => ⟨"down", rfl⟩)).2.1⟩

/-- C8: deleting an existing session removes it from the registry (it no
longer appears in `getAllSessions`/`ListSessions`), removes its metadata
record and deletes its persisted auth material, and the HTTP handler
answers 204; deleting a non-existent id returns `false`, changes nothing,
and the handler answers 404 Not Found instead of crashing. -/
theorem delete_session_spec (st : ManagerState) (sid : String) :
    ((lookupSession st.sessions sid).isSome = true →
      (deleteSession st sid).2 = true ∧
      lookupSession (deleteSession st sid).1.sessions sid = none ∧
      (∀ p ∈ (deleteSession st sid).1.sessions, p.1 ≠ sid) ∧
      (∀ m ∈ (deleteSession st sid).1.meta, m.id ≠ sid) ∧
      (∀ a ∈ (deleteSession st sid).1.authIds, a ≠ sid) ∧
      (deleteSessionHandler st sid).2 = 204) ∧
    ((lookupSession st.sessions sid).isSome = false →
      deleteSession st sid = (st, false) ∧
      (deleteSessionHandler st sid).2 = 404) := by
  constructor
  · intro hex
    have hdel : deleteSession st sid =
        ({ sessions := st.sessions.filter (fun p => p.1 ≠ sid),
           meta := removeMetadata st.meta sid,
           authIds := st.authIds.filter (fun a => a ≠ sid) }, true) := by
      simp [deleteSession, hex]
    refine ⟨by rw [hdel], ?_, ?_, ?_, ?_, ?_⟩
    · rw [hdel]
      exact lookupSession_filter_ne st.sessions sid
    · rw [hdel]
      intro p hp
      simp only [List.mem_filter, decide_eq_true_eq] at hp
      exact hp.2
    · rw [hdel]
      intro m hm
      simp only [removeMetadata, List.mem_filter, decide_eq_true_eq] at hm
      exact hm.2
    · rw [hdel]
      intro a ha
      simp only [List.mem_filter, decide_eq_true_eq] at ha
      exact ha.2
    · simp [deleteSessionHandler, hdel]
  · intro hmiss
    have hdel : deleteSession st sid = (st, false) := by
      simp [deleteSession, hmiss]
    exact ⟨hdel, by simp [deleteSessionHandler, hdel]⟩

theorem delete_session_spec_witness :
    (lookupSession ([("s", { id := "s", status := .connected })] :
        List (String × Session)) "s").isSome = true ∧
    (deleteSession ⟨[("s", { id := "s", status := .connected })],
        [{ id := "s", createdAt := 0 }], ["s"]⟩ "s").2 = true ∧
    (lookupSession ([] : List (String × Session)) "missing").isSome = false ∧
    (deleteSessionHandler (⟨[], [], []⟩ : ManagerState) "missing").2 = 404 :=
  ⟨by decide,
   ((delete_session_spec ⟨[("s", { id := "s", status := .connected })],
      [{ id := "s", createdAt := 0 }], ["s"]⟩ "s").1 (by decide)).1,
   by decide,
   ((delete_session_spec (⟨[], [], []⟩ : ManagerState) "missing").2 (by decide)).2⟩

lemma jsOr_of_known (o : Option String) (d p : String) (hp : o = some p) (hne : p ≠ "") :
    jsOr o d = p := by
  subst hp
  simp [jsOr, hne]

lemma jsOr_of_none (d : String) : jsOr none d = d := rfl

lemma jsOr_ne_empty (o : Option String) (d : String) (hd : d ≠ "") : jsOr o d ≠ "" := by
  cases o with
  | none => simpa [jsOr] using hd
  | some p =>
    by_cases hp : p = ""
    · simp only [jsOr, hp, if_pos rfl]
      exact hd
    · simp only [jsOr, if_neg hp]
      exact hp

/-- C9: in every emitted envelope — `session.connected`,
`session.disconnected`, `message.received` and the message-status events —
the `origin` field is the session's account identifier when one is known
(a present, non-empty `phoneNumber`; for `session.connected` it is the
just-learned identifier from the callback), otherwise the session id, and
it is never the empty string (given non-empty session ids and non-empty
transport-reported identifiers). -/
theorem event_origin_spec (sid : String) (hsid : sid ≠ "") (now : Nat)
    (st : OrchState) (s : Session) (hs : getSession st sid = some s)
    (info : ConnectionInfo) (hphone : info.phoneNumber ≠ "") (status : Nat) :
    ((connectedEvent sid now info).origin = info.phoneNumber ∧
     (onConnectedUpdate now info s).phoneNumber = some info.phoneNumber ∧
     (connectedEvent sid now info).origin ≠ "") ∧
    ((∀ p, s.phoneNumber = some p → p ≠ "" →
        (disconnectedEvent sid now { s with status := .disconnected }).origin = p) ∧
     (s.phoneNumber = none →
        (disconnectedEvent sid now { s with status := .disconnected }).origin = sid) ∧
     (disconnectedEvent sid now { s with status := .disconnected }).origin ≠ "") ∧
    (∃ ev, messageReceivedEvent now st sid = some ev ∧
      (∀ p, s.phoneNumber = some p → p ≠ "" → ev.origin = p) ∧
      (s.phoneNumber = none → ev.origin = sid) ∧ ev.origin ≠ "") ∧
    (∃ ev, messageStatusEvent now st sid status = some ev ∧
      (∀ p, s.phoneNumber = some p → p ≠ "" → ev.origin = p) ∧
      (s.phoneNumber = none → ev.origin = sid) ∧ ev.origin ≠ "") := by
  refine ⟨⟨rfl, rfl, hphone⟩, ⟨?_, ?_, ?_⟩, ?_, ?_⟩
  · intro p hp hpne
    exact jsOr_of_known s.phoneNumber sid p hp hpne
  · intro hnone
    simp [disconnectedEvent, hnone, jsOr_of_none]
  · exact jsOr_ne_empty s.phoneNumber sid hsid
  · refine ⟨(⟨sid, jsOr s.phoneNumber sid, "message.received", now⟩ : WebhookEvent),
        ?_, ?_, ?_, ?_⟩
    · simp [messageReceivedEvent, hs]
    · intro p hp hpne
      exact jsOr_of_known s.phoneNumber sid p hp hpne
    · intro hnone
      simp [hnone, jsOr_of_none]
    · exact jsOr_ne_empty s.phoneNumber sid hsid
  · refine ⟨(⟨sid, jsOr s.phoneNumber sid, statusEventType status, now⟩ : WebhookEvent),
        ?_, ?_, ?_, ?_⟩
    · simp [messageStatusEvent, hs]
    · intro p hp hpne
      exact jsOr_of_known s.phoneNumber sid p hp hpne
    · intro hnone
      simp [hnone, jsOr_of_none]
    · exact jsOr_ne_empty s.phoneNumber sid hsid

theorem event_origin_spec_witness :
    (("s1" : String) ≠ "" ∧
     getSession ⟨[("s1", { id := "s1", status := .qr_waiting })], [], 0, 0⟩ "s1" =
        some { id := "s1", status := .qr_waiting } ∧
     (("555" : String) ≠ "")) ∧
    (disconnectedEvent "s1" 9
      { ({ id := "s1", status := .qr_waiting } : Session) with
        status := .disconnected }).origin ≠ "" :=
  ⟨⟨by decide, by decide, by decide⟩,
   (event_origin_spec "s1" (by decide) 9
      ⟨[("s1", { id := "s1", status := .qr_waiting })], [], 0, 0⟩
      { id := "s1", status := .qr_waiting } (by decide)
      ⟨"555", none⟩ (by decide) 3).2.1.2.2⟩

/-! ### Bounded wait lemmas (claim C3) -/

lemma waitPolls_first_ready (trace : Nat → Session) :
    ∀ (fuel k0 k : Nat), k0 ≤ k → k < k0 + fuel → qrReady (trace k) = true →
    (∀ j, k0 ≤ j → j < k → qrReady (trace j) = false) →
    waitPolls (fun i => some (trace i)) k0 fuel = (.ok, k) := by
  intro fuel
  induction fuel with
  | zero => intro k0 k h0 hk _ _; omega
  | succ n ih =>
    intro k0 k h0 hk hready hmin
    by_cases hq : qrReady (trace k0) = true
    · have hkk : k = k0 := by
        by_contra hne
        have hlt : k0 < k := lt_of_le_of_ne h0 (Ne.symm hne)
        have h2 := hmin k0 le_rfl hlt
        rw [hq] at h2
        exact Bool.noConfusion h2
      subst hkk
      simp [waitPolls, hq]
    · have hq' : qrReady (trace k0) = false := by
        cases h : qrReady (trace k0) with
        | true => exact absurd h hq
        | false => rfl
      have hne : k0 ≠ k := by
        intro he
        rw [← he] at hready
        rw [hready] at hq'
        cases hq'
      have h0' : k0 + 1 ≤ k := by omega
      simp only [waitPolls, hq', if_false, Bool.false_eq_true]
      exact ih (k0 + 1) k h0' (by omega) hready
        (fun j hj hjk => hmin j (by omega) hjk)

lemma waitPolls_never_ready (trace : Nat → Session) :
    ∀ (fuel k0 : Nat), (∀ j, k0 ≤ j → j < k0 + fuel → qrReady (trace j) = false) →
    waitPolls (fun i => some (trace i)) k0 fuel = (.timeout, k0 + fuel) := by
  intro fuel
  induction fuel with
  | zero => intro k0 _; simp [waitPolls]
  | succ n ih =>
    intro k0 hnone
    have hq : qrReady (trace k0) = false := hnone k0 le_rfl (by omega)
    simp only [waitPolls, hq, Bool.false_eq_true, if_false]
    have := ih (k0 + 1) (fun j hj hjn => hnone j (by omega) (by omega))
    rw [this]
    congr 1
    omega

/-- C3: the wait loop of `waitForQRCode` — used with a 30 s bound by
session creation and a 15 s bound by the read-triggered refresh — exits
with success exactly at the first poll where the session has a (truthy) QR
credential or is `connected` or `disconnected`; if no poll within the
bound satisfies that predicate, it exits with the timeout error instead of
waiting forever. -/
theorem wait_bounded (trace : Nat → Session) (timeoutMs k : Nat) :
    createWaitTimeoutMs = 30000 ∧ refreshWaitTimeoutMs = 15000 ∧
    (k < pollBudget timeoutMs → qrReady (trace k) = true →
      (∀ j, j < k → qrReady (trace j) = false) →
      waitPolls (fun i => some (trace i)) 0 (pollBudget timeoutMs) = (.ok, k) ∧
      waitForQRCode (fun i => some (trace i)) timeoutMs = .ok) ∧
    ((∀ j, j < pollBudget timeoutMs → qrReady (trace j) = false) →
      waitForQRCode (fun i => some (trace i)) timeoutMs = .timeout) := by
  refine ⟨rfl, rfl, ?_, ?_⟩
  · intro hk hready hmin
    have h := waitPolls_first_ready trace (pollBudget timeoutMs) 0 k (Nat.zero_le k)
      (by omega) hready (fun j _ hj => hmin j hj)
    exact ⟨h, by simp [waitForQRCode, h]⟩
  · intro hnone
    have h := waitPolls_never_ready trace (pollBudget timeoutMs) 0
      (fun j _ hj => hnone j (by omega))
    simp [waitForQRCode, h]

theorem wait_bounded_witness :
    (1 < pollBudget 30000 ∧
     qrReady { id := "w", status := .qr_waiting, qrCode := some "Q" } = true ∧
     (∀ j, j < 1 → qrReady { id := "w", status := Status.connecting } = false)) ∧
    waitForQRCode
      (fun i => some (if i = 0 then { id := "w", status := Status.connecting }
                      else { id := "w", status := .qr_waiting, qrCode := some "Q" }))
      30000 = .ok := by
  refine ⟨⟨by decide, by decide, fun j hj => by decide⟩, ?_⟩
  have h := (wait_bounded
    (fun i => if i = 0 then { id := "w", status := Status.connecting }
              else { id := "w", status := .qr_waiting, qrCode := some "Q" })
    30000 1).2.2.1 (by decide) (by decide) (fun j hj => by
      interval_cases j
      · decide)
  exact h.2

/-! ### Claim C1: concurrent refresh -/

lemma clients_setSession (st : OrchState) (sid : String) (s : Session) :
    (setSession st sid s).clients = st.clients := rfl

lemma connectCount_setSession (st : OrchState) (sid : String) (s : Session) :
    (setSession st sid s).connectCount = st.connectCount := rfl

/-- An expired-QR `qr_waiting` session holding a live transport handle:
the precondition of claim C1 (credentialExpiresAt 1000 ms, read at 5000 ms). -/
def refreshCexSession : Session :=
  { id := "s", status := .qr_waiting, qrCode := some "OLD", qrExpiresAt := some 1000 }

/-- Orchestrator state holding only `refreshCexSession` and its handle. -/
def refreshCexState : OrchState :=
  { sessions := [("s", refreshCexSession)], clients := ["s"] }

/-- C1 counterexample: two concurrent `GetSession`-triggered refresh
invocations of the same expired credential, interleaved so that both pass
the guard before either mutates (schedule 0,1,0,0,1,1), perform **two**
transport `connect()` calls, not one: `refreshQRCode` installs no
per-session in-flight marker. -/
theorem concurrent_refresh_not_single_cex :
    (runSchedule 5000 "s" refreshCexState [.guard, .guard]
        [0, 1, 0, 0, 1, 1]).1.connectCount = 2 ∧
    ¬ (runSchedule 5000 "s" refreshCexState [.guard, .guard]
        [0, 1, 0, 0, 1, 1]).1.connectCount = 1 := by
  constructor <;> decide

/-- C1 (amended): refresh invocations that do not interleave regenerate
exactly once per expiry event — when a second reader's guard runs only
after the first invocation has completed (serial schedule 0,0,0,1,1,1),
the session is already `connecting`, the second invocation is a no-op, and
exactly one transport `connect()` happens.  Interleaved readers, however,
may each regenerate (see the counterexample): the code has no per-session
in-flight refresh guard. -/
theorem serial_refresh_single_regeneration (now : Nat) (st : OrchState) (sid : String)
    (s : Session) (hs : getSession st sid = some s)
    (hg : refreshGuardPasses now s = true) :
    (runSchedule now sid st [.guard, .guard] [0, 0, 0, 1, 1, 1]).1.connectCount =
      st.connectCount + 1 := by
  have h1 : refreshStep now sid st .guard = (st, .teardown) := by
    simp [refreshStep, hs, hg]
  have h3 : getSession (teardownClient st sid) sid = some s := by
    rw [getSession_teardownClient]; exact hs
  set st2 : OrchState :=
    { setSession (teardownClient st sid) sid { s with status := .connecting } with
        clients := insertClient (teardownClient st sid).clients sid,
        connectCount := (teardownClient st sid).connectCount + 1 } with hst2
  have h4 : initializeSessionCore (teardownClient st sid) sid = .ok st2 := by
    simp [initializeSessionCore, h3, hst2]
    constructor <;> rfl
  have h5 : getSession st2 sid = some { s with status := .connecting } := by
    show lookupSession st2.sessions sid = _
    rw [hst2]
    exact lookupSession_setPair_self _ sid _
  have h6 : refreshStep now sid st2 .guard = (st2, .done) := by
    simp [refreshStep, h5, refreshGuardPasses]
  have h7 : st2.connectCount = st.connectCount + 1 := by
    rw [hst2]
    show (teardownClient st sid).connectCount + 1 = _
    rw [connectCount_teardownClient]
  calc (runSchedule now sid st [.guard, .guard] [0, 0, 0, 1, 1, 1]).1.connectCount
      = (runSchedule now sid st [.teardown, .guard] [0, 0, 1, 1, 1]).1.connectCount := by
        simp [runSchedule, h1]
    _ = (runSchedule now sid (teardownClient st sid)
          [.reinit, .guard] [0, 1, 1, 1]).1.connectCount := by
        simp [runSchedule, refreshStep]
    _ = (runSchedule now sid st2 [.done, .guard] [1, 1, 1]).1.connectCount := by
        simp [runSchedule, refreshStep, h4]
    _ = (runSchedule now sid st2 [.done, .done] [1, 1]).1.connectCount := by
        simp [runSchedule, h6]
    _ = st2.connectCount := by
        simp [runSchedule, refreshStep]
    _ = st.connectCount + 1 := h7

theorem serial_refresh_single_regeneration_witness :
    (getSession refreshCexState "s" = some refreshCexSession ∧
     refreshGuardPasses 5000 refreshCexSession = true) ∧
    (runSchedule 5000 "s" refreshCexState [.guard, .guard]
        [0, 0, 0, 1, 1, 1]).1.connectCount = refreshCexState.connectCount + 1 :=
  ⟨⟨by decide, by decide⟩,
   serial_refresh_single_regeneration 5000 refreshCexState "s" refreshCexSession
     (by decide) (by decide)⟩

/-! ### Claim C2: the disconnect handler -/

/-- A `qr_waiting` session with a live credential, about to receive a
transport disconnect. -/
def discCexSession : Session :=
  { id := "s", status := .qr_waiting, qrCode := some "QRDATA", qrExpiresAt := some 60000 }

/-- Orchestrator state holding only `discCexSession` and its handle. -/
def discCexState : OrchState :=
  { sessions := [("s", discCexSession)], clients := ["s"] }

/-- C2 counterexample: after the disconnect handler runs on a
`qr_waiting` session holding a credential, `qrCode` and `qrExpiresAt`
still hold their old values — the handler does **not** clear the live
credential fields as the claim states (its `updateSession` only sets
`status`). -/
theorem disconnect_keeps_credential_cex :
    ((onDisconnected 99 discCexState "s").toOption.bind
        (fun p => getSession p.1 "s")).map Session.qrCode = some (some "QRDATA") ∧
    ¬ ((onDisconnected 99 discCexState "s").toOption.bind
        (fun p => getSession p.1 "s")).map Session.qrCode = some none ∧
    ((onDisconnected 99 discCexState "s").toOption.bind
        (fun p => getSession p.1 "s")).map Session.qrExpiresAt = some (some 60000) ∧
    ¬ ((onDisconnected 99 discCexState "s").toOption.bind
        (fun p => getSession p.1 "s")).map Session.qrExpiresAt = some none :=
  ⟨by decide, by decide, by decide, by decide⟩

/-- C2 (amended): when the transport emits disconnected for an existing
session, the handler sets the session's state to `disconnected`, keeps
`accountId` (phoneNumber) if previously known, leaves `credential` and
`credentialExpiresAt` **unchanged** (it does not clear them), removes the
in-memory transport handle, and emits the `session.disconnected` event. -/
theorem disconnect_handler_spec (now : Nat) (st : OrchState) (sid : String) (s : Session)
    (hs : getSession st sid = some s) :
    ∃ st' ev, onDisconnected now st sid = .ok (st', ev) ∧
      getSession st' sid = some { s with status := .disconnected } ∧
      ({ s with status := Status.disconnected } : Session).phoneNumber = s.phoneNumber ∧
      ({ s with status := Status.disconnected } : Session).qrCode = s.qrCode ∧
      ({ s with status := Status.disconnected } : Session).qrExpiresAt = s.qrExpiresAt ∧
      st'.clients = st.clients.erase sid ∧
      (st.clients.Nodup → sid ∉ st'.clients) ∧
      ev = disconnectedEvent sid now { s with status := .disconnected } := by
  refine ⟨{ setSession st sid { s with status := .disconnected } with
              clients := (setSession st sid
                { s with status := .disconnected }).clients.erase sid },
          disconnectedEvent sid now { s with status := .disconnected },
          ?_, ?_, rfl, rfl, rfl, rfl, ?_, rfl⟩
  · simp only [onDisconnected, hs]
  · show lookupSession
        (setSession st sid { s with status := .disconnected }).sessions sid = _
    exact lookupSession_setPair_self _ sid _
  · intro hnd
    exact hnd.not_mem_erase

theorem disconnect_handler_spec_witness :
    getSession discCexState "s" = some discCexSession ∧
    (∃ st' ev, onDisconnected 99 discCexState "s" = .ok (st', ev) ∧
      getSession st' "s" = some { discCexSession with status := .disconnected } ∧
      ({ discCexSession with status := Status.disconnected } : Session).phoneNumber =
        discCexSession.phoneNumber ∧
      ({ discCexSession with status := Status.disconnected } : Session).qrCode =
        discCexSession.qrCode ∧
      ({ discCexSession with status := Status.disconnected } : Session).qrExpiresAt =
        discCexSession.qrExpiresAt ∧
      st'.clients = discCexState.clients.erase "s" ∧
      (discCexState.clients.Nodup → "s" ∉ st'.clients) ∧
      ev = disconnectedEvent "s" 99 { discCexSession with status := .disconnected }) :=
  ⟨by decide, disconnect_handler_spec 99 discCexState "s" discCexSession (by decide)⟩


lemma load_meta_subset (authIds : List String) :
    ∀ (records : List SessionData) (reg : List (String × Session))
      (meta : List SessionData) (x : SessionData),
      x ∈ (loadPersistedSessions records authIds reg meta).2 → x ∈ meta := by
  intro records
  induction records with
  | nil => intro reg meta x hx; simpa [loadPersistedSessions] using hx
  | cons r rest ih =>
    intro reg meta x hx
    simp only [loadPersistedSessions] at hx
    by_cases h : authIds.contains r.id = true
    · rw [if_pos h] at hx
      exact ih _ _ x hx
    · rw [if_neg h] at hx
      have := ih _ _ x hx
      simp only [removeMetadata, List.mem_filter] at this
      exact this.1

lemma load_lookup_preserved (authIds : List String) (sid : String) :
    ∀ (records : List SessionData) (reg : List (String × Session))
      (meta : List SessionData),
      (∀ r' ∈ records, authIds.contains r'.id = true → r'.id ≠ sid) →
      lookupSession (loadPersistedSessions records authIds reg meta).1 sid =
        lookupSession reg sid := by
  intro records
  induction records with
  | nil => intro reg meta _; rfl
  | cons r rest ih =>
    intro reg meta h
    simp only [loadPersistedSessions]
    by_cases ha : authIds.contains r.id = true
    · rw [if_pos ha]
      rw [ih _ _ (fun r' hr' => h r' (List.mem_cons_of_mem r hr'))]
      exact lookupSession_setPair_ne reg r.id sid (restoredSession r)
        (Ne.symm (h r (List.mem_cons_self r rest) ha))
    · rw [if_neg ha]
      exact ih _ _ (fun r' hr' => h r' (List.mem_cons_of_mem r hr'))

lemma load_lookup_of_auth (authIds : List String) :
    ∀ (records : List SessionData) (reg : List (String × Session))
      (meta : List SessionData) (r : SessionData),
      r ∈ records → authIds.contains r.id = true →
      (records.map SessionData.id).Nodup →
      lookupSession (loadPersistedSessions records authIds reg meta).1 r.id =
        some (restoredSession r) := by
  intro records
  induction records with
  | nil => intro _ _ r hr; cases hr
  | cons r0 rest ih =>
    intro reg meta r hr hauth hnd
    simp only [List.map_cons, List.nodup_cons] at hnd
    obtain ⟨hnotin, hnd'⟩ := hnd
    rcases List.mem_cons.mp hr with he | hmem
    · subst he
      simp only [loadPersistedSessions, if_pos hauth]
      rw [load_lookup_preserved authIds r.id rest _ _ ?cond]
      · exact lookupSession_setPair_self reg r.id (restoredSession r)
      case cond =>
        intro r' hr' _ heq
        exact hnotin (heq ▸ List.mem_map_of_mem SessionData.id hr')
    · simp only [loadPersistedSessions]
      by_cases ha0 : authIds.contains r0.id = true
      · rw [if_pos ha0]
        exact ih _ _ r hmem hauth hnd'
      · rw [if_neg ha0]
        exact ih _ _ r hmem hauth hnd'

lemma load_no_auth (authIds : List String) :
    ∀ (records : List SessionData) (reg : List (String × Session))
      (meta : List SessionData) (r : SessionData),
      r ∈ records → authIds.contains r.id = false →
      (records.map SessionData.id).Nodup →
      lookupSession reg r.id = none →
      lookupSession (loadPersistedSessions records authIds reg meta).1 r.id = none ∧
      ∀ m ∈ (loadPersistedSessions records authIds reg meta).2, m.id ≠ r.id := by
  intro records
  induction records with
  | nil => intro _ _ r hr; cases hr
  | cons r0 rest ih =>
    intro reg meta r hr hnauth hnd hreg
    simp only [List.map_cons, List.nodup_cons] at hnd
    obtain ⟨hnotin, hnd'⟩ := hnd
    rcases List.mem_cons.mp hr with he | hmem
    · subst he
      have hnc : ¬ (authIds.contains r.id = true) := by
        rw [hnauth]; exact Bool.false_ne_true
      simp only [loadPersistedSessions, if_neg hnc]
      constructor
      · rw [load_lookup_preserved authIds r.id rest _ _ ?cond]
        · exact hreg
        case cond =>
          intro r' hr' _ heq
          exact hnotin (heq ▸ List.mem_map_of_mem SessionData.id hr')
      · intro m hm
        have hsub := load_meta_subset authIds rest _ _ m hm
        simp only [removeMetadata, List.mem_filter, decide_eq_true_eq] at hsub
        exact hsub.2
    · have hne : r.id ≠ r0.id := by
        intro heq
        exact hnotin (heq ▸ List.mem_map_of_mem SessionData.id hmem)
      simp only [loadPersistedSessions]
      by_cases ha0 : authIds.contains r0.id = true
      · rw [if_pos ha0]
        refine ih _ _ r hmem hnauth hnd' ?_
        rw [lookupSession_setPair_ne reg r0.id r.id (restoredSession r0) hne]
        exact hreg
      · rw [if_neg ha0]
        exact ih _ _ r hmem hnauth hnd' hreg

lemma lookupSession_mem :
    ∀ (reg : List (String × Session)) (sid : String) (s : Session),
      lookupSession reg sid = some s → (sid, s) ∈ reg := by
  intro reg
  induction reg with
  | nil => intro sid s h; cases h
  | cons p rest ih =>
    intro sid s h
    obtain ⟨k, v⟩ := p
    by_cases hk : k = sid
    · simp only [lookupSession] at h
      rw [if_pos hk] at h
      injection h with hv
      subst hk
      subst hv
      exact List.mem_cons_self _ _
    · simp only [lookupSession] at h
      rw [if_neg hk] at h
      exact List.mem_cons_of_mem _ (ih sid s h)

lemma mem_reconnectTargets_of_lookup (reg : List (String × Session)) (sid : String)
    (s : Session) (h : lookupSession reg sid = some s)
    (hd : s.status = .disconnected) : sid ∈ reconnectTargets reg := by
  have hpair : (sid, s) ∈ reg := lookupSession_mem reg sid s h
  have hfil : (sid, s) ∈ reg.filter (fun p => p.2.status == Status.disconnected) :=
    List.mem_filter.mpr ⟨hpair, by simp [hd]⟩
  exact List.mem_map.mpr ⟨(sid, s), hfil, rfl⟩


def recCexA : SessionData := { id := "a", phoneNumber := some "555", createdAt := 10 }

def recCexB : SessionData := { id := "b", createdAt := 20 }

/-- C6: on startup recovery, every persisted metadata record whose durable
auth material exists is admitted into the registry in state `disconnected`
with its known identity and timestamps and receives a reconnection attempt
(`WhatsAppService.initialize` calls `initializeSession` for every
disconnected session); a record without auth material is deleted from the
metadata store and not admitted, so a subsequent `getSession` returns
`none` (NotFound). -/
theorem startup_recovery_spec (records : List SessionData) (authIds : List String)
    (hnd : (records.map SessionData.id).Nodup) (r : SessionData) (hr : r ∈ records) :
    (authIds.contains r.id = true →
      lookupSession (loadPersistedSessions records authIds [] records).1 r.id =
          some (restoredSession r) ∧
      (restoredSession r).status = .disconnected ∧
      r.id ∈ reconnectTargets (loadPersistedSessions records authIds [] records).1) ∧
    (authIds.contains r.id = false →
      lookupSession (loadPersistedSessions records authIds [] records).1 r.id = none ∧
      ∀ m ∈ (loadPersistedSessions records authIds [] records).2, m.id ≠ r.id) := by
  constructor
  · intro hauth
    have hlk := load_lookup_of_auth authIds records [] records r hr hauth hnd
    exact ⟨hlk, rfl, mem_reconnectTargets_of_lookup _ _ _ hlk rfl⟩
  · intro hnauth
    exact load_no_auth authIds records [] records r hr hnauth hnd rfl

theorem startup_recovery_spec_witness :
    ((([recCexA, recCexB].map SessionData.id).Nodup ∧ recCexA ∈ [recCexA, recCexB] ∧
      recCexB ∈ [recCexA, recCexB] ∧ (["a"] : List String).contains recCexA.id = true ∧
      (["a"] : List String).contains recCexB.id = false) ∧
     lookupSession (loadPersistedSessions [recCexA, recCexB] ["a"] []
        [recCexA, recCexB]).1 "a" = some (restoredSession recCexA)) ∧
    lookupSession (loadPersistedSessions [recCexA, recCexB] ["a"] []
        [recCexA, recCexB]).1 "b" = none :=
  ⟨⟨⟨by decide, by decide, by decide, by decide, by decide⟩,
    ((startup_recovery_spec [recCexA, recCexB] ["a"] (by decide) recCexA (by decide)).1
      (by decide)).1⟩,
   ((startup_recovery_spec [recCexA, recCexB] ["a"] (by decide) recCexB (by decide)).2
      (by decide)).1⟩

end Zapw
